import Mathlib

/-!
# check-memory-usage: the sampling and classification check

A shallow embedding of `cmd/check-memory-usage/main.go`: the configuration
validation `checkArgs` and the check body `executeCheck`, which samples the
virtual memory statistics twice, sleeps in between, and classifies the two
`UsedPercent` readings against the warning and critical thresholds.

The calls `executeCheck` makes to its collaborators (`mem.VirtualMemory`,
`time.Sleep`, `fmt.Printf`) are recorded in a trace; what the operating system
answers to the two sampling calls is an explicit input.
-/

namespace CheckMemoryUsage

/-! ## Go `float64` values, as far as the check uses them

The check compares floats (`>`, `== 0`) and prints them (`%.2f`); it does no
arithmetic on them. -/

/-- A `float64`: NaN, the two infinities, negative zero, or a finite value
(every finite `float64` is a rational number; `fin 0` is positive zero). -/
inductive F64 where
  | nan
  | ninf
  | nzero
  | fin (q : ℚ)
  | pinf
  deriving DecidableEq

namespace F64

/-- Position of a float in the IEEE-754 order: `none` for NaN (unordered),
otherwise a class (-1 for -Inf, 0 for finite, 1 for +Inf) and the finite
value. Negative zero and positive zero have the same position. -/
def key : F64 → Option (Int × ℚ)
  | nan => none
  | ninf => some (-1, 0)
  | nzero => some (0, 0)
  | fin q => some (0, q)
  | pinf => some (1, 0)

/-- Go `a < b` on `float64`: false as soon as one operand is NaN. -/
def lt (a b : F64) : Bool :=
  match a.key, b.key with
  | some (ca, qa), some (cb, qb) => decide (ca < cb ∨ (ca = cb ∧ qa < qb))
  | _, _ => false

/-- Go `a > b` on `float64`. -/
def gt (a b : F64) : Bool := lt b a

/-- Go `a <= b` on `float64`: false as soon as one operand is NaN. -/
def le (a b : F64) : Bool :=
  match a.key, b.key with
  | some (ca, qa), some (cb, qb) => decide (ca < cb ∨ (ca = cb ∧ qa ≤ qb))
  | _, _ => false

/-- Go `a == 0` on `float64`: true for both zeros, false for NaN. -/
def isZero (a : F64) : Bool :=
  match a.key with
  | some (c, q) => decide (c = 0 ∧ q = 0)
  | none => false

/-- Quotient of `num / den` rounded to the nearest integer, ties to even. -/
def roundHalfEven (num den : Nat) : Nat :=
  let q := num / den
  let r := num % den
  if den < 2 * r ∨ (2 * r = den ∧ q % 2 = 1) then q + 1 else q

/-- Two decimal digits of a number below 100. -/
def pad2 (n : Nat) : String :=
  if n < 10 then "0" ++ toString n else toString n

/-- The verb `%.2f` of package `fmt`: the exact value rounded to two decimals
(ties to even), with a minus sign when the sign bit is set; `NaN`, `+Inf` and
`-Inf` for the special values. -/
def fmt2 : F64 → String
  | nan => "NaN"
  | ninf => "-Inf"
  | pinf => "+Inf"
  | nzero => "-0.00"
  | fin q =>
    let n := roundHalfEven (q.num.natAbs * 100) q.den
    (if q < 0 then "-" else "") ++ toString (n / 100) ++ "." ++ pad2 (n % 100)

end F64

/-! ## Data model -/

/-- Modelled from the spec: the check states of the external plugin SDK
(`sensu.CheckStateOK`), whose declaration is not in the sources. The spec gives
0 = OK, 1 = WARNING, 2 = CRITICAL. -/
def CheckStateOK : Int := 0

/-- Modelled from the spec: `sensu.CheckStateWarning` of the external plugin
SDK, whose declaration is not in the sources (1 = WARNING). -/
def CheckStateWarning : Int := 1

/-- Modelled from the spec: `sensu.CheckStateCritical` of the external plugin
SDK, whose declaration is not in the sources (2 = CRITICAL). -/
def CheckStateCritical : Int := 2

/-- The plugin configuration `Config` (the global `plugin`): the name carried
by the embedded `sensu.PluginConfig` and the three option values. -/
structure Config where
  Name : String
  Critical : F64
  Warning : F64
  Interval : Int

/-- The fields of `mem.VirtualMemoryStat` the check reads. -/
structure VirtualMemoryStat where
  Total : Nat
  Available : Nat
  Used : Nat
  Free : Nat
  UsedPercent : F64
  deriving DecidableEq

/-- What one call of `mem.VirtualMemory()` returns: a pointer that may be nil
and an error that may be nil. -/
structure VMResult where
  stat : Option VirtualMemoryStat
  err : Option String
  deriving DecidableEq

/-- A sample was obtained: a statistics value and no error. -/
def VMResult.ok (s : VirtualMemoryStat) : VMResult := ⟨some s, none⟩

/-- What the operating system answers to the first and to the second call of
`mem.VirtualMemory()` of one run. -/
structure Env where
  vmStart : VMResult
  vmEnd : VMResult

/-- An effect of the check on its collaborators. -/
inductive Event where
  | sample (r : VMResult)
  | sleep (nanoseconds : Int)
  | print (text : String)
  deriving DecidableEq

/-- How a Go function of type `(int, error)` ends: it returns a state and an
error (`none` is nil), or it panics. -/
inductive Outcome where
  | ret (state : Int) (err : Option String)
  | panic
  deriving DecidableEq

/-- One execution: the effects in order and the outcome. -/
structure Run where
  trace : List Event
  outcome : Outcome
  deriving DecidableEq

/-- The results of the `mem.VirtualMemory()` calls a trace contains, in order. -/
def samplesOf : List Event → List VMResult
  | [] => []
  | Event.sample r :: t => r :: samplesOf t
  | _ :: t => samplesOf t

/-- The durations of the `time.Sleep` calls a trace contains, in order. -/
def sleepsOf : List Event → List Int
  | [] => []
  | Event.sleep d :: t => d :: sleepsOf t
  | _ :: t => sleepsOf t

/-- The texts of the `fmt.Printf` calls a trace contains, in order. -/
def printsOf : List Event → List String
  | [] => []
  | Event.print s :: t => s :: printsOf t
  | _ :: t => printsOf t

/-! ## `checkArgs` -/

/-- The function `checkArgs`: the four guards in source order; each failure
returns the warning state and an error, the accepted case `(OK, nil)`. -/
def checkArgs (plugin : Config) : Int × Option String :=
  if plugin.Critical.isZero then
    (CheckStateWarning, some "--critical is required")
  else if plugin.Warning.isZero then
    (CheckStateWarning, some "--warning is required")
  else if F64.gt plugin.Warning plugin.Critical then
    (CheckStateWarning, some "--warning cannot be greater than --critical")
  else if plugin.Interval = 0 then
    (CheckStateWarning, some "--interval is required")
  else
    (CheckStateOK, none)

/-! ## `executeCheck` -/

/-- The call `time.ParseDuration(fmt.Sprintf("%ds", interval))` of the Go
standard library: the decimal seconds are converted to nanoseconds, and the
parse fails when the magnitude exceeds `(1 << 63) / 10^9 = 9223372036` seconds,
the largest whole number of seconds a `time.Duration` holds. -/
def parseDuration (interval : Int) : Except String Int :=
  if 9223372036 < interval.natAbs then
    Except.error ("time: invalid duration \"" ++ toString interval ++ "s\"")
  else
    Except.ok (interval * 1000000000)

/-- The performance data string built from a statistics value. -/
def perfData (vm : VirtualMemoryStat) : String :=
  "mem_total=" ++ toString vm.Total ++ ", mem_available=" ++ toString vm.Available
    ++ ", mem_used=" ++ toString vm.Used ++ ", mem_free=" ++ toString vm.Free

/-- The text of the three `fmt.Printf` calls, which differ in the label only. -/
def statusLine (name label : String) (startPct endPct : F64) (perf : String) : String :=
  name ++ " " ++ label ++ ": " ++ F64.fmt2 startPct ++ "% memory usage in the beginning and "
    ++ F64.fmt2 endPct ++ "% afterwards | " ++ perf ++ "\n"

/-- The function `executeCheck`. The error of the first sampling call is
overwritten by the result of `time.ParseDuration` before it is tested, and the
error of the second call is never tested; reading `UsedPercent` through a nil
pointer panics. -/
def executeCheck (plugin : Config) (os : Env) : Run :=
  let vmStart := os.vmStart
  let t1 := [Event.sample vmStart]
  match parseDuration plugin.Interval with
  | Except.error err =>
    ⟨t1, Outcome.ret CheckStateCritical
      (some ("failed to get virtual memory statistics: " ++ err))⟩
  | Except.ok duration =>
    match vmStart.stat with
    | none => ⟨t1, Outcome.panic⟩
    | some vs =>
      let startTotal := vs.UsedPercent
      let vmEnd := os.vmEnd
      let t2 := t1 ++ [Event.sleep duration, Event.sample vmEnd]
      match vmEnd.stat with
      | none => ⟨t2, Outcome.panic⟩
      | some ve =>
        let endTotal := ve.UsedPercent
        let perf := perfData vs
        if F64.gt startTotal plugin.Critical && F64.gt endTotal plugin.Critical then
          ⟨t2 ++ [Event.print
              (statusLine plugin.Name "Critical" vs.UsedPercent ve.UsedPercent perf)],
            Outcome.ret CheckStateCritical none⟩
        else if F64.gt startTotal plugin.Warning && F64.gt endTotal plugin.Warning then
          ⟨t2 ++ [Event.print
              (statusLine plugin.Name "Warning" vs.UsedPercent ve.UsedPercent perf)],
            Outcome.ret CheckStateWarning none⟩
        else
          ⟨t2 ++ [Event.print
              (statusLine plugin.Name "OK" vs.UsedPercent ve.UsedPercent perf)],
            Outcome.ret CheckStateOK none⟩

/-! ## The check run -/

/-- Modelled from the spec: the workflow of the external plugin harness that
`main` builds with `sensu.NewGoCheck(..., checkArgs, executeCheck, false)` and
whose code is not in the sources. The run is strictly sequential, validate
first and then sample, sleep, sample, classify, print; a configuration that
validation rejects fails the run before any sampling, with the state that
validation returned. -/
def checkRun (plugin : Config) (os : Env) : Run :=
  match checkArgs plugin with
  | (status, some err) => ⟨[], Outcome.ret status (some err)⟩
  | (_, none) => executeCheck plugin os

/-- The label printed for a check state. -/
def severityLabel (state : Int) : String :=
  if state = CheckStateCritical then "Critical"
  else if state = CheckStateWarning then "Warning"
  else "OK"

/-! ## Concrete inputs used by the closed statements -/

/-- The default configuration of the plugin: critical 90, warning 75, a sample
interval of 20 seconds. -/
def defaultConfig : Config := ⟨"check-memory-usage", F64.fin 90, F64.fin 75, 20⟩

/-- A statistics value of a 16 GiB machine with the given used percentage. -/
def statAt (pct : ℚ) : VirtualMemoryStat :=
  ⟨17179869184, 858993459, 16320875725, 429496729, F64.fin pct⟩

/-- A statistics value with other byte counts than `statAt`. -/
def statLater (pct : ℚ) : VirtualMemoryStat :=
  ⟨17179869184, 1717986918, 15461882266, 1288490188, F64.fin pct⟩


/-! # Theorems -/

/-! ## Order facts about float comparison -/

theorem F64.lt_le_trans {a b c : F64} (h1 : F64.lt a b = true) (h2 : F64.le b c = true) :
    F64.lt a c = true := by
  unfold F64.lt F64.le at *
  cases ha : a.key <;> cases hb : b.key <;> cases hc : c.key <;> simp_all
  rcases h1 with h1 | ⟨h1, h1'⟩ <;> rcases h2 with h2 | ⟨h2, h2'⟩
  · left; omega
  · left; omega
  · left; omega
  · right; exact ⟨by omega, by linarith⟩

theorem F64.le_lt_trans {a b c : F64} (h1 : F64.le a b = true) (h2 : F64.lt b c = true) :
    F64.lt a c = true := by
  unfold F64.lt F64.le at *
  cases ha : a.key <;> cases hb : b.key <;> cases hc : c.key <;> simp_all
  rcases h1 with h1 | ⟨h1, h1'⟩ <;> rcases h2 with h2 | ⟨h2, h2'⟩
  · left; omega
  · left; omega
  · left; omega
  · right; exact ⟨by omega, by linarith⟩

/-- Without a NaN operand, `a > b` is false exactly when `a <= b`. -/
theorem F64.le_of_not_gt {a b : F64} (ha : a ≠ F64.nan) (hb : b ≠ F64.nan)
    (h : F64.gt a b = false) : F64.le a b = true := by
  unfold F64.gt F64.lt at h
  unfold F64.le
  cases a <;> cases b <;> simp_all [F64.key]

/-! ## What a run of `executeCheck` does -/

/-- The sampling calls of a run returned the samples `s` and `e` only if the
interval converted to a duration and the operating system gave both samples. -/
theorem executeCheck_samples {plugin : Config} {os : Env} {s e : VirtualMemoryStat}
    (h : samplesOf (executeCheck plugin os).trace = [VMResult.ok s, VMResult.ok e]) :
    (∃ d, parseDuration plugin.Interval = Except.ok d) ∧
      os.vmStart = VMResult.ok s ∧ os.vmEnd = VMResult.ok e := by
  unfold executeCheck at h
  cases hp : parseDuration plugin.Interval with
  | error err => simp [hp, samplesOf] at h
  | ok d =>
    cases hs : os.vmStart.stat with
    | none => simp [hp, hs, samplesOf] at h
    | some vs =>
      cases he : os.vmEnd.stat with
      | none =>
        simp [hp, hs, he, samplesOf, VMResult.ok] at h
        rw [h.2] at he
        simp at he
      | some ve =>
        have h2 : os.vmStart = VMResult.ok s ∧ os.vmEnd = VMResult.ok e := by
          simp only [hp, hs, he] at h
          split_ifs at h <;> simpa [samplesOf] using h
        exact ⟨⟨d, rfl⟩, h2⟩

/-- The outcome of a run whose two samples were obtained: the classification of
the two readings, critical first, then warning, else OK. -/
theorem executeCheck_outcome {plugin : Config} {os : Env} {s e : VirtualMemoryStat}
    (h : samplesOf (executeCheck plugin os).trace = [VMResult.ok s, VMResult.ok e]) :
    (executeCheck plugin os).outcome =
      if F64.gt s.UsedPercent plugin.Critical && F64.gt e.UsedPercent plugin.Critical then
        Outcome.ret CheckStateCritical none
      else if F64.gt s.UsedPercent plugin.Warning && F64.gt e.UsedPercent plugin.Warning then
        Outcome.ret CheckStateWarning none
      else Outcome.ret CheckStateOK none := by
  obtain ⟨⟨d, hd⟩, hs, he⟩ := executeCheck_samples h
  unfold executeCheck
  simp only [hd, hs, he, VMResult.ok]
  split_ifs <;> rfl

/-! ## Classification -/

/-- C1: whenever the two samples of a run are obtained and both used percentages
are strictly greater than the critical threshold, `executeCheck` returns the
critical state and a nil error. -/
theorem executeCheck_both_above_critical (plugin : Config) (os : Env)
    (s e : VirtualMemoryStat)
    (hobt : samplesOf (executeCheck plugin os).trace = [VMResult.ok s, VMResult.ok e])
    (hs : F64.gt s.UsedPercent plugin.Critical = true)
    (he : F64.gt e.UsedPercent plugin.Critical = true) :
    (executeCheck plugin os).outcome = Outcome.ret CheckStateCritical none := by
  rw [executeCheck_outcome hobt]
  simp [hs, he]

theorem executeCheck_both_above_critical_witness :
    (executeCheck defaultConfig ⟨VMResult.ok (statAt 95), VMResult.ok (statLater 96)⟩).outcome
      = Outcome.ret CheckStateCritical none :=
  executeCheck_both_above_critical defaultConfig
    ⟨VMResult.ok (statAt 95), VMResult.ok (statLater 96)⟩ (statAt 95) (statLater 96)
    (by decide) (by decide) (by decide)

/-- C2: whenever the two samples of a run are obtained, both used percentages
are strictly greater than the warning threshold and they are not both strictly
greater than the critical threshold, `executeCheck` returns the warning state
and a nil error. -/
theorem executeCheck_both_above_warning (plugin : Config) (os : Env)
    (s e : VirtualMemoryStat)
    (hobt : samplesOf (executeCheck plugin os).trace = [VMResult.ok s, VMResult.ok e])
    (hs : F64.gt s.UsedPercent plugin.Warning = true)
    (he : F64.gt e.UsedPercent plugin.Warning = true)
    (hc : ¬ (F64.gt s.UsedPercent plugin.Critical = true ∧
      F64.gt e.UsedPercent plugin.Critical = true)) :
    (executeCheck plugin os).outcome = Outcome.ret CheckStateWarning none := by
  rw [executeCheck_outcome hobt]
  have hc' : (F64.gt s.UsedPercent plugin.Critical && F64.gt e.UsedPercent plugin.Critical)
      = false := by
    cases h1 : F64.gt s.UsedPercent plugin.Critical <;>
      cases h2 : F64.gt e.UsedPercent plugin.Critical <;> simp_all
  simp [hs, he, hc']

theorem executeCheck_both_above_warning_witness :
    (executeCheck defaultConfig ⟨VMResult.ok (statAt 95), VMResult.ok (statLater 80)⟩).outcome
      = Outcome.ret CheckStateWarning none :=
  executeCheck_both_above_warning defaultConfig
    ⟨VMResult.ok (statAt 95), VMResult.ok (statLater 80)⟩ (statAt 95) (statLater 80)
    (by decide) (by decide) (by decide) (by decide)

/-- C3: debounce. With `warning <= critical`, whenever the two samples of a run
are obtained and at most one used percentage is strictly greater than the
warning threshold, `executeCheck` returns the OK state and a nil error, so the
state is neither warning nor critical. -/
theorem executeCheck_debounce (plugin : Config) (os : Env)
    (s e : VirtualMemoryStat)
    (hwc : F64.le plugin.Warning plugin.Critical = true)
    (hobt : samplesOf (executeCheck plugin os).trace = [VMResult.ok s, VMResult.ok e])
    (hone : ¬ (F64.gt s.UsedPercent plugin.Warning = true ∧
      F64.gt e.UsedPercent plugin.Warning = true)) :
    (executeCheck plugin os).outcome = Outcome.ret CheckStateOK none ∧
      (executeCheck plugin os).outcome ≠ Outcome.ret CheckStateWarning none ∧
      (executeCheck plugin os).outcome ≠ Outcome.ret CheckStateCritical none := by
  have hw : (F64.gt s.UsedPercent plugin.Warning && F64.gt e.UsedPercent plugin.Warning)
      = false := by
    cases h1 : F64.gt s.UsedPercent plugin.Warning <;>
      cases h2 : F64.gt e.UsedPercent plugin.Warning <;> simp_all
  have hc : (F64.gt s.UsedPercent plugin.Critical && F64.gt e.UsedPercent plugin.Critical)
      = false := by
    cases h1 : F64.gt s.UsedPercent plugin.Critical
    · simp
    · cases h2 : F64.gt e.UsedPercent plugin.Critical
      · simp
      · exact absurd ⟨F64.le_lt_trans hwc h1, F64.le_lt_trans hwc h2⟩ hone
  have hok : (executeCheck plugin os).outcome = Outcome.ret CheckStateOK none := by
    rw [executeCheck_outcome hobt]
    simp [hw, hc]
  rw [hok]
  refine ⟨rfl, ?_, ?_⟩ <;> simp [CheckStateOK, CheckStateWarning, CheckStateCritical]

theorem executeCheck_debounce_witness :
    (executeCheck defaultConfig ⟨VMResult.ok (statAt 99), VMResult.ok (statLater 60)⟩).outcome
        = Outcome.ret CheckStateOK none ∧
      (executeCheck defaultConfig ⟨VMResult.ok (statAt 99), VMResult.ok (statLater 60)⟩).outcome
        ≠ Outcome.ret CheckStateWarning none ∧
      (executeCheck defaultConfig ⟨VMResult.ok (statAt 99), VMResult.ok (statLater 60)⟩).outcome
        ≠ Outcome.ret CheckStateCritical none :=
  executeCheck_debounce defaultConfig
    ⟨VMResult.ok (statAt 99), VMResult.ok (statLater 60)⟩ (statAt 99) (statLater 60)
    (by decide) (by decide) (by decide)

/-! ## Validation -/

/-- C4: for every configuration with `warning > critical`, whatever the interval
and the signs of the thresholds, `checkArgs` returns the warning state and a
non-nil error, and the check run ends with the warning state and an error
without any sampling, sleeping or printing. -/
theorem checkArgs_warning_above_critical (plugin : Config) (os : Env)
    (h : F64.gt plugin.Warning plugin.Critical = true) :
    (checkArgs plugin).1 = CheckStateWarning ∧ (checkArgs plugin).2 ≠ none ∧
      (checkRun plugin os).trace = [] ∧
      ∃ msg, (checkRun plugin os).outcome = Outcome.ret CheckStateWarning (some msg) := by
  have hc : (checkArgs plugin).1 = CheckStateWarning ∧ (checkArgs plugin).2 ≠ none := by
    unfold checkArgs
    split_ifs <;> simp_all
  refine ⟨hc.1, hc.2, ?_⟩
  unfold checkRun
  rcases hca : checkArgs plugin with ⟨st, err⟩
  rw [hca] at hc
  cases err with
  | none => exact absurd rfl hc.2
  | some m =>
    have hst : st = CheckStateWarning := hc.1
    subst hst
    exact ⟨rfl, _, rfl⟩

theorem checkArgs_warning_above_critical_witness :
    (checkArgs ⟨"check-memory-usage", F64.fin 70, F64.fin 80, 20⟩).1 = CheckStateWarning ∧
      (checkArgs ⟨"check-memory-usage", F64.fin 70, F64.fin 80, 20⟩).2 ≠ none ∧
      (checkRun ⟨"check-memory-usage", F64.fin 70, F64.fin 80, 20⟩
        ⟨VMResult.ok (statAt 95), VMResult.ok (statLater 95)⟩).trace = [] ∧
      ∃ msg, (checkRun ⟨"check-memory-usage", F64.fin 70, F64.fin 80, 20⟩
        ⟨VMResult.ok (statAt 95), VMResult.ok (statLater 95)⟩).outcome
          = Outcome.ret CheckStateWarning (some msg) :=
  checkArgs_warning_above_critical ⟨"check-memory-usage", F64.fin 70, F64.fin 80, 20⟩
    ⟨VMResult.ok (statAt 95), VMResult.ok (statLater 95)⟩ (by decide)

/-- C5: `checkArgs` returns a non-nil error exactly when critical is zero, or
warning is zero, or warning is greater than critical, or the interval is zero;
every result with an error carries the warning state (which is not the critical
state), and every result without an error is `(OK, nil)`. -/
theorem checkArgs_error_iff (plugin : Config) :
    ((checkArgs plugin).2 ≠ none ↔
        (plugin.Critical.isZero = true ∨ plugin.Warning.isZero = true ∨
          F64.gt plugin.Warning plugin.Critical = true ∨ plugin.Interval = 0)) ∧
      ((checkArgs plugin).2 ≠ none →
        (checkArgs plugin).1 = CheckStateWarning ∧ (checkArgs plugin).1 ≠ CheckStateCritical) ∧
      ((checkArgs plugin).2 = none → checkArgs plugin = (CheckStateOK, none)) := by
  unfold checkArgs
  split_ifs <;> simp_all [CheckStateWarning, CheckStateCritical]

/-- C6 as stated fails: a configuration with negative thresholds and a negative
interval is accepted, and so is a configuration whose critical threshold is NaN,
for which `warning <= critical` is false. -/
theorem checkArgs_accepts_nonpositive :
    checkArgs ⟨"check-memory-usage", F64.fin (-5), F64.fin (-10), -1⟩ = (CheckStateOK, none) ∧
      F64.gt (F64.fin (-5)) (F64.fin 0) = false ∧
      F64.gt (F64.fin (-10)) (F64.fin 0) = false ∧
      ¬ ((0 : Int) < -1) ∧
      checkArgs ⟨"check-memory-usage", F64.nan, F64.fin 80, 20⟩ = (CheckStateOK, none) ∧
      F64.le (F64.fin 80) F64.nan = false := by
  decide

/-- C6, amended: every configuration that `checkArgs` accepts has a critical
threshold other than zero, a warning threshold other than zero, a warning
threshold that is not greater than the critical one (so `warning <= critical`
unless a threshold is NaN), and an interval other than zero. -/
theorem checkArgs_accepted (plugin : Config)
    (h : checkArgs plugin = (CheckStateOK, none)) :
    plugin.Critical.isZero = false ∧ plugin.Warning.isZero = false ∧
      F64.gt plugin.Warning plugin.Critical = false ∧ plugin.Interval ≠ 0 ∧
      (plugin.Warning ≠ F64.nan → plugin.Critical ≠ F64.nan →
        F64.le plugin.Warning plugin.Critical = true) := by
  have h4 : plugin.Critical.isZero = false ∧ plugin.Warning.isZero = false ∧
      F64.gt plugin.Warning plugin.Critical = false ∧ plugin.Interval ≠ 0 := by
    unfold checkArgs at h
    split_ifs at h <;> simp_all [CheckStateWarning, CheckStateOK]
  exact ⟨h4.1, h4.2.1, h4.2.2.1, h4.2.2.2, fun hw hc => F64.le_of_not_gt hw hc h4.2.2.1⟩

theorem checkArgs_accepted_witness :
    F64.isZero (F64.fin (-5)) = false ∧ F64.isZero (F64.fin (-10)) = false ∧
      F64.gt (F64.fin (-10)) (F64.fin (-5)) = false ∧ (-1 : Int) ≠ 0 ∧
      (F64.fin (-10) ≠ F64.nan → F64.fin (-5) ≠ F64.nan →
        F64.le (F64.fin (-10)) (F64.fin (-5)) = true) :=
  checkArgs_accepted ⟨"check-memory-usage", F64.fin (-5), F64.fin (-10), -1⟩ (by decide)

/-! ## Failed sampling -/

/-- The only error `executeCheck` returns is the one of the duration
conversion: an error of a sampling call never reaches the caller. -/
theorem executeCheck_error_only_from_duration (plugin : Config) (os : Env)
    (st : Int) (msg : String)
    (h : (executeCheck plugin os).outcome = Outcome.ret st (some msg)) :
    ∃ err, parseDuration plugin.Interval = Except.error err := by
  unfold executeCheck at h
  cases hp : parseDuration plugin.Interval with
  | error err => exact ⟨err, rfl⟩
  | ok d =>
    exfalso
    cases hs : os.vmStart.stat with
    | none => simp [hp, hs] at h
    | some vs =>
      cases he : os.vmEnd.stat with
      | none => simp [hp, hs, he] at h
      | some ve =>
        simp only [hp, hs, he] at h
        split_ifs at h <;> simp at h

/-- C7, the code at the failing inputs: with the default configuration, when
the first sampling call fails (nil statistics and an error) the run panics
right after that call, and when the second sampling call fails the run panics
after the sleep and that call; neither run returns a state and an error. -/
theorem executeCheck_failed_sample_panics :
    executeCheck defaultConfig
        ⟨⟨none, some "open /proc/meminfo: permission denied"⟩, VMResult.ok (statAt 95)⟩
      = ⟨[Event.sample ⟨none, some "open /proc/meminfo: permission denied"⟩], Outcome.panic⟩ ∧
    executeCheck defaultConfig
        ⟨VMResult.ok (statAt 95), ⟨none, some "open /proc/meminfo: permission denied"⟩⟩
      = ⟨[Event.sample (VMResult.ok (statAt 95)), Event.sleep 20000000000,
          Event.sample ⟨none, some "open /proc/meminfo: permission denied"⟩],
        Outcome.panic⟩ := by
  decide

/-! ## The printed line -/

/-- C8: every run of `executeCheck` that returns a state with a nil error had
both statistics values and printed exactly one text, the line
`<name> <label>: <start>% memory usage in the beginning and <end>% afterwards | `
followed by the four byte counts of the start sample in decimal and a newline,
where the label is the one of the returned state and the percentages are those
of the start and of the end sample, in that order. -/
theorem executeCheck_prints_one_line (plugin : Config) (os : Env) (st : Int)
    (h : (executeCheck plugin os).outcome = Outcome.ret st none) :
    ∃ s e, os.vmStart.stat = some s ∧ os.vmEnd.stat = some e ∧
      printsOf (executeCheck plugin os).trace =
        [plugin.Name ++ " " ++ severityLabel st ++ ": " ++ F64.fmt2 s.UsedPercent
          ++ "% memory usage in the beginning and " ++ F64.fmt2 e.UsedPercent
          ++ "% afterwards | " ++ "mem_total=" ++ toString s.Total
          ++ ", mem_available=" ++ toString s.Available
          ++ ", mem_used=" ++ toString s.Used
          ++ ", mem_free=" ++ toString s.Free ++ "\n"] := by
  unfold executeCheck at h ⊢
  cases hp : parseDuration plugin.Interval with
  | error err => simp [hp] at h
  | ok d =>
    cases hs : os.vmStart.stat with
    | none => simp [hp, hs] at h
    | some vs =>
      cases he : os.vmEnd.stat with
      | none => simp [hp, hs, he] at h
      | some ve =>
        refine ⟨vs, ve, rfl, rfl, ?_⟩
        simp only [hp, hs, he] at h ⊢
        have hC : severityLabel CheckStateCritical = "Critical" := rfl
        have hW : severityLabel CheckStateWarning = "Warning" := rfl
        have hO : severityLabel CheckStateOK = "OK" := rfl
        split_ifs at h ⊢ <;>
          · simp only [Outcome.ret.injEq, and_true] at h
            subst h
            simp only [printsOf, statusLine, perfData, hC, hW, hO, List.cons_append,
              List.nil_append, String.append_assoc]

theorem executeCheck_prints_one_line_witness :
    ∃ s e, some (statAt 80) = some s ∧ some (statLater 97) = some e ∧
      printsOf (executeCheck defaultConfig
          ⟨VMResult.ok (statAt 80), VMResult.ok (statLater 97)⟩).trace =
        ["check-memory-usage" ++ " " ++ severityLabel CheckStateWarning ++ ": "
          ++ F64.fmt2 s.UsedPercent
          ++ "% memory usage in the beginning and " ++ F64.fmt2 e.UsedPercent
          ++ "% afterwards | " ++ "mem_total=" ++ toString s.Total
          ++ ", mem_available=" ++ toString s.Available
          ++ ", mem_used=" ++ toString s.Used
          ++ ", mem_free=" ++ toString s.Free ++ "\n"] :=
  executeCheck_prints_one_line defaultConfig
    ⟨VMResult.ok (statAt 80), VMResult.ok (statLater 97)⟩ CheckStateWarning (by decide)

/-- The line of the witness of C8, evaluated: the byte counts are those of the
start sample. -/
theorem executeCheck_printed_text :
    printsOf (executeCheck defaultConfig
        ⟨VMResult.ok (statAt 80), VMResult.ok (statLater 97)⟩).trace =
      ["check-memory-usage Warning: 80.00% memory usage in the beginning and 97.00% afterwards | mem_total=17179869184, mem_available=858993459, mem_used=16320875725, mem_free=429496729\n"] := by
  rfl

/-! ## The check run -/

/-- C9 as stated fails: with critical 90, warning 75, interval 0 and both
samples at 95 percent, validation rejects the zero interval, and the run ends
with the warning state and an error, without sampling or printing. -/
theorem checkRun_interval_zero :
    checkRun ⟨"check-memory-usage", F64.fin 90, F64.fin 75, 0⟩
        ⟨VMResult.ok (statAt 95), VMResult.ok (statLater 95)⟩
      = ⟨[], Outcome.ret CheckStateWarning
          (some "--interval is required")⟩ := by
  decide

/-- C9, amended: a check run with critical 90, warning 75, an interval other
than zero and both samples at 95 percent ends with the critical state; when the
interval converts to a duration (at most 9223372036 seconds in magnitude) the
error is nil and the one line printed carries the label `Critical`. -/
theorem checkRun_both_95 (name : String) (interval : Int) (s e : VirtualMemoryStat)
    (hi : interval ≠ 0)
    (hs : s.UsedPercent = F64.fin 95) (he : e.UsedPercent = F64.fin 95) :
    (∃ err, (checkRun ⟨name, F64.fin 90, F64.fin 75, interval⟩
        ⟨VMResult.ok s, VMResult.ok e⟩).outcome = Outcome.ret CheckStateCritical err) ∧
      (interval.natAbs ≤ 9223372036 →
        (checkRun ⟨name, F64.fin 90, F64.fin 75, interval⟩
          ⟨VMResult.ok s, VMResult.ok e⟩).outcome = Outcome.ret CheckStateCritical none ∧
        printsOf (checkRun ⟨name, F64.fin 90, F64.fin 75, interval⟩
          ⟨VMResult.ok s, VMResult.ok e⟩).trace =
            [statusLine name "Critical" (F64.fin 95) (F64.fin 95) (perfData s)]) := by
  have hca : checkArgs ⟨name, F64.fin 90, F64.fin 75, interval⟩ = (CheckStateOK, none) := by
    have h1 : F64.isZero (F64.fin 90) = false := by decide
    have h2 : F64.isZero (F64.fin 75) = false := by decide
    have h3 : F64.gt (F64.fin 75) (F64.fin 90) = false := by decide
    simp [checkArgs, h1, h2, h3, hi]
  have hg : F64.gt (F64.fin 95) (F64.fin 90) = true := by decide
  by_cases hb : interval.natAbs ≤ 9223372036
  · have hp : parseDuration interval = Except.ok (interval * 1000000000) := by
      simp [parseDuration, Nat.not_lt.mpr hb]
    have hrun : checkRun ⟨name, F64.fin 90, F64.fin 75, interval⟩
        ⟨VMResult.ok s, VMResult.ok e⟩ =
        ⟨[Event.sample (VMResult.ok s), Event.sleep (interval * 1000000000),
            Event.sample (VMResult.ok e),
            Event.print (statusLine name "Critical" (F64.fin 95) (F64.fin 95) (perfData s))],
          Outcome.ret CheckStateCritical none⟩ := by
      simp [checkRun, hca, executeCheck, hp, VMResult.ok, hs, he, hg]
    rw [hrun]
    exact ⟨⟨none, rfl⟩, fun _ => ⟨rfl, rfl⟩⟩
  · obtain ⟨msg, hp⟩ : ∃ msg, parseDuration interval = Except.error msg := by
      simp [parseDuration, Nat.not_le.mp hb]
    have hrun : (checkRun ⟨name, F64.fin 90, F64.fin 75, interval⟩
        ⟨VMResult.ok s, VMResult.ok e⟩).outcome =
        Outcome.ret CheckStateCritical
          (some ("failed to get virtual memory statistics: " ++ msg)) := by
      simp [checkRun, hca, executeCheck, hp]
    rw [hrun]
    exact ⟨⟨_, rfl⟩, fun h => absurd h hb⟩

theorem checkRun_both_95_witness :
    (∃ err, (checkRun ⟨"check-memory-usage", F64.fin 90, F64.fin 75, 20⟩
        ⟨VMResult.ok (statAt 95), VMResult.ok (statLater 95)⟩).outcome
          = Outcome.ret CheckStateCritical err) ∧
      (Int.natAbs 20 ≤ 9223372036 →
        (checkRun ⟨"check-memory-usage", F64.fin 90, F64.fin 75, 20⟩
          ⟨VMResult.ok (statAt 95), VMResult.ok (statLater 95)⟩).outcome
            = Outcome.ret CheckStateCritical none ∧
        printsOf (checkRun ⟨"check-memory-usage", F64.fin 90, F64.fin 75, 20⟩
          ⟨VMResult.ok (statAt 95), VMResult.ok (statLater 95)⟩).trace =
            [statusLine "check-memory-usage" "Critical" (F64.fin 95) (F64.fin 95)
              (perfData (statAt 95))]) :=
  checkRun_both_95 "check-memory-usage" 20 (statAt 95) (statLater 95)
    (by decide) rfl rfl

/-! ## Monotonicity -/

/-- C10: for a fixed configuration and obtained sample pairs `(s, e)` and
`(s', e')` with `s <= s'` and `e <= e'` in used percentage, `executeCheck`
returns a state for each pair, and the state for `(s, e)` is at most the state
for `(s', e')` in the order OK < WARNING < CRITICAL. -/
theorem executeCheck_monotone (plugin : Config) (s e s' e' : VirtualMemoryStat)
    (hs : F64.le s.UsedPercent s'.UsedPercent = true)
    (he : F64.le e.UsedPercent e'.UsedPercent = true) :
    ∃ st err st' err',
      (executeCheck plugin ⟨VMResult.ok s, VMResult.ok e⟩).outcome = Outcome.ret st err ∧
      (executeCheck plugin ⟨VMResult.ok s', VMResult.ok e'⟩).outcome = Outcome.ret st' err' ∧
      st ≤ st' ∧ CheckStateOK < CheckStateWarning ∧ CheckStateWarning < CheckStateCritical := by
  have up : ∀ t : F64, F64.gt s.UsedPercent t = true → F64.gt s'.UsedPercent t = true :=
    fun t h => F64.lt_le_trans h hs
  have up' : ∀ t : F64, F64.gt e.UsedPercent t = true → F64.gt e'.UsedPercent t = true :=
    fun t h => F64.lt_le_trans h he
  have hord : CheckStateOK < CheckStateWarning ∧ CheckStateWarning < CheckStateCritical := by
    decide
  unfold executeCheck
  cases hp : parseDuration plugin.Interval with
  | error err => exact ⟨_, _, _, _, rfl, rfl, le_refl _, hord⟩
  | ok d =>
    simp only [VMResult.ok]
    by_cases hc : (F64.gt s.UsedPercent plugin.Critical &&
        F64.gt e.UsedPercent plugin.Critical) = true
    · have hc' : (F64.gt s'.UsedPercent plugin.Critical &&
          F64.gt e'.UsedPercent plugin.Critical) = true := by
        rw [Bool.and_eq_true] at hc ⊢
        exact ⟨up _ hc.1, up' _ hc.2⟩
      rw [if_pos hc, if_pos hc']
      exact ⟨_, _, _, _, rfl, rfl, le_refl _, hord⟩
    · rw [if_neg hc]
      by_cases hw : (F64.gt s.UsedPercent plugin.Warning &&
          F64.gt e.UsedPercent plugin.Warning) = true
      · have hw' : (F64.gt s'.UsedPercent plugin.Warning &&
            F64.gt e'.UsedPercent plugin.Warning) = true := by
          rw [Bool.and_eq_true] at hw ⊢
          exact ⟨up _ hw.1, up' _ hw.2⟩
        rw [if_pos hw]
        by_cases hc' : (F64.gt s'.UsedPercent plugin.Critical &&
            F64.gt e'.UsedPercent plugin.Critical) = true
        · rw [if_pos hc']
          exact ⟨_, _, _, _, rfl, rfl, by decide, hord⟩
        · rw [if_neg hc', if_pos hw']
          exact ⟨_, _, _, _, rfl, rfl, le_refl _, hord⟩
      · rw [if_neg hw]
        split_ifs <;> exact ⟨_, _, _, _, rfl, rfl, by decide, hord⟩

theorem executeCheck_monotone_witness :
    ∃ st err st' err',
      (executeCheck defaultConfig ⟨VMResult.ok (statAt 80), VMResult.ok (statLater 70)⟩).outcome
        = Outcome.ret st err ∧
      (executeCheck defaultConfig ⟨VMResult.ok (statAt 95), VMResult.ok (statLater 92)⟩).outcome
        = Outcome.ret st' err' ∧
      st ≤ st' ∧ CheckStateOK < CheckStateWarning ∧ CheckStateWarning < CheckStateCritical :=
  executeCheck_monotone defaultConfig (statAt 80) (statLater 70) (statAt 95) (statLater 92)
    (by decide) (by decide)

end CheckMemoryUsage
